import Mathlib

/-!
Verification of the OTP relay server core in `src/websocket_server.py`
(ConnectionManager, the `/api/otp`, `/api/email`, `/api/status` handlers
and the per-connection websocket consumer loop).

The Python module keeps three in-process dictionaries:
  active_connections : Dict[str, WebSocket]
  pending_otps       : Dict[str, Dict]
  user_emails        : Dict[str, str]
We embed dictionaries as association lists with unique keys; websocket
channels are identified by natural numbers; the outcome of an `await
websocket.send_json(...)` (success, or an exception) is supplied by an
oracle `sendOk : Channel → Bool`, and every frame successfully handed to
a channel is recorded in an output list, so that "the client receives m"
is observable.  Wall-clock values (`time.time()`, `datetime.now()`) are
passed in as parameters.
-/

namespace TempMail

abbrev ClientId := String

/-- A websocket channel, identified by an opaque token. -/
abbrev Channel := Nat

/-- The JSON frames the server constructs, as a closed tagged variant.
`otp` is the `otp_info` dict built in `receive_otp`; `newEmail` is the
`email_info` dict built in `register_email`; `statusReply` is the reply
to an inbound `status` frame; `statusBroadcast` is the dict built in
`ConnectionManager.broadcast_status`. -/
inductive Frame where
  | otp (otp email sender domain : String) (timestamp : Nat)
  | newEmail (email : String) (timestamp : Nat)
  | ping
  | pong
  | statusReply (connected : Bool) (email : Option String) (timestamp : Nat)
  | statusBroadcast (connected_users pending_otps : Nat) (timestamp : String)
deriving DecidableEq, Repr

/-- Python dict lookup (`d.get(k)` / `k in d`): first binding for `k`. -/
def dictLookup {β : Type} (k : ClientId) : List (ClientId × β) → Option β
  | [] => none
  | p :: rest => if p.1 = k then some p.2 else dictLookup k rest

/-- Python dict deletion (`del d[k]` / `d.pop(k)`): removes the binding
for `k`.  A Python dict holds at most one binding per key; the filter
form keeps that invariant without carrying a nodup proof around. -/
def dictErase {β : Type} (k : ClientId) : List (ClientId × β) → List (ClientId × β)
  | [] => []
  | p :: rest => if p.1 = k then dictErase k rest else p :: dictErase k rest

/-- Python dict assignment (`d[k] = v`): binds `k` to `v`, overwriting
any previous binding.  (A real dict updates in place, keeping the key's
insertion position; no property below depends on iteration order across
distinct keys, so consing the fresh binding in front is faithful.) -/
def dictInsert {β : Type} (k : ClientId) (v : β) (l : List (ClientId × β)) : List (ClientId × β) :=
  (k, v) :: dictErase k l

/-- Number of bindings held for key `k`. -/
def dictCountKey {β : Type} (k : ClientId) : List (ClientId × β) → Nat
  | [] => 0
  | p :: rest => if p.1 = k then dictCountKey k rest + 1 else dictCountKey k rest

/-- The module-level `ConnectionManager` state: `active_connections`,
`pending_otps` and `user_emails`. -/
structure ConnectionManager where
  active_connections : List (ClientId × Channel)
  pending_otps : List (ClientId × Frame)
  user_emails : List (ClientId × String)
deriving DecidableEq, Repr

/-- `user_id in manager.active_connections`. -/
def ConnectionManager.isConnected (m : ConnectionManager) (user_id : ClientId) : Bool :=
  (dictLookup user_id m.active_connections).isSome

/-- `ConnectionManager.disconnect`: removes the connection binding for
`user_id` if present; touches nothing else. -/
def ConnectionManager.disconnect (m : ConnectionManager) (user_id : ClientId) : ConnectionManager :=
  if m.isConnected user_id then
    { m with active_connections := dictErase user_id m.active_connections }
  else m

/-- Result of an operation that may push frames to channels: the new
manager state, the frames successfully delivered (channel, payload), and
the boolean the Python function returns. -/
structure SendResult where
  manager : ConnectionManager
  sent : List (Channel × Frame)
  ok : Bool
deriving DecidableEq, Repr

/-- `ConnectionManager.send_otp`: if `user_id` is connected, try to send
`data` on its channel; on success return True, on a send exception
disconnect `user_id` and return False; if not connected return False.
The queue is never touched here. -/
def ConnectionManager.send_otp (m : ConnectionManager) (sendOk : Channel → Bool)
    (user_id : ClientId) (data : Frame) : SendResult :=
  match dictLookup user_id m.active_connections with
  | some websocket =>
      if sendOk websocket then ⟨m, [(websocket, data)], true⟩
      else ⟨m.disconnect user_id, [], false⟩
  | none => ⟨m, [], false⟩

/-- Result of `connect`: new state plus delivered frames. -/
structure ConnectResult where
  manager : ConnectionManager
  sent : List (Channel × Frame)
deriving DecidableEq, Repr

/-- `ConnectionManager.connect`: accept the channel, bind it to
`user_id` (replacing any prior binding), then, if a pending message
exists for `user_id`, pop it from the queue and hand it to `send_otp`
(a single best-effort attempt; the pop happens before the send, so the
message is gone from the queue whether or not the send succeeds). -/
def ConnectionManager.connect (m : ConnectionManager) (sendOk : Channel → Bool)
    (websocket : Channel) (user_id : ClientId) : ConnectResult :=
  let m1 : ConnectionManager :=
    { m with active_connections := dictInsert user_id websocket m.active_connections }
  match dictLookup user_id m1.pending_otps with
  | some msg =>
      let m2 : ConnectionManager := { m1 with pending_otps := dictErase user_id m1.pending_otps }
      let r := m2.send_otp sendOk user_id msg
      ⟨r.manager, r.sent⟩
  | none => ⟨m1, []⟩

/-- The status dict built once at the top of `broadcast_status`. -/
def statusFrame (m : ConnectionManager) (now : String) : Frame :=
  Frame.statusBroadcast m.active_connections.length m.pending_otps.length now

/-- The `for user_id, websocket in list(...)` loop of `broadcast_status`:
iterates over a snapshot of the connection dict, sending `status` to
each channel; a send exception disconnects that recipient only and the
loop moves on. -/
def broadcastLoop (sendOk : Channel → Bool) (status : Frame) :
    List (ClientId × Channel) → ConnectionManager → ConnectionManager × List (Channel × Frame)
  | [], st => (st, [])
  | (user_id, websocket) :: rest, st =>
      if sendOk websocket then
        let r := broadcastLoop sendOk status rest st
        (r.1, (websocket, status) :: r.2)
      else
        broadcastLoop sendOk status rest (st.disconnect user_id)

/-- `ConnectionManager.broadcast_status`. -/
def ConnectionManager.broadcast_status (m : ConnectionManager) (sendOk : Channel → Bool)
    (now : String) : ConnectionManager × List (Channel × Frame) :=
  broadcastLoop sendOk (statusFrame m now) m.active_connections m

/-- Request body of `POST /api/otp` (pydantic model `OTPData`). -/
structure OTPData where
  user_id : ClientId
  otp : String
  email : String
  sender : String
  domain : String
deriving DecidableEq, Repr

/-- Request body of `POST /api/email` (pydantic model `EmailData`). -/
structure EmailData where
  user_id : ClientId
  email : String
deriving DecidableEq, Repr

/-- Result of an HTTP handler: new state, delivered frames, and the
`status` field of the JSON response. -/
structure ApiResult where
  manager : ConnectionManager
  sent : List (Channel × Frame)
  status : String
deriving DecidableEq, Repr

/-- The `otp_info` dict built in `receive_otp`. -/
def otpInfo (data : OTPData) (now : Nat) : Frame :=
  Frame.otp data.otp data.email data.sender data.domain now

/-- `POST /api/otp` handler `receive_otp`: build `otp_info`, try
`send_otp`; on True answer `delivered`, on False store `otp_info` in
`pending_otps[user_id]` (overwriting) and answer `pending`. -/
def receive_otp (m : ConnectionManager) (sendOk : Channel → Bool) (data : OTPData)
    (now : Nat) : ApiResult :=
  let otp_info := otpInfo data now
  let r := m.send_otp sendOk data.user_id otp_info
  if r.ok then ⟨r.manager, r.sent, "delivered"⟩
  else
    ⟨{ r.manager with pending_otps := dictInsert data.user_id otp_info r.manager.pending_otps },
     r.sent, "pending"⟩

/-- `POST /api/email` handler `register_email`: overwrite
`user_emails[user_id]`, build `email_info`, call `send_otp` and discard
its boolean; always answer `registered`.  Nothing is ever written to
`pending_otps` on this path. -/
def register_email (m : ConnectionManager) (sendOk : Channel → Bool) (data : EmailData)
    (now : Nat) : ApiResult :=
  let m1 : ConnectionManager :=
    { m with user_emails := dictInsert data.user_id data.email m.user_emails }
  let email_info := Frame.newEmail data.email now
  let r := m1.send_otp sendOk data.user_id email_info
  ⟨r.manager, r.sent, "registered"⟩

/-- `GET /api/status/{user_id}`: (connected, email, has_pending). -/
def user_status (m : ConnectionManager) (user_id : ClientId) : Bool × Option String × Bool :=
  (m.isConnected user_id, dictLookup user_id m.user_emails,
   (dictLookup user_id m.pending_otps).isSome)

/-- What `json.loads(data)` followed by `message.get("type")` yields for
one inbound text frame.  `invalid` covers text that is not valid JSON
(`json.loads` raises `JSONDecodeError`) as well as JSON that is not an
object (`message.get` raises `AttributeError`) — in both cases an
exception escapes the inner `except asyncio.TimeoutError` handler.
`obj t` is a JSON object whose `"type"` entry is the string `t` (or
`none` when the key is absent or its value is not one of the recognized
strings). -/
inductive ParseResult where
  | invalid
  | obj (typeField : Option String)
deriving DecidableEq, Repr

/-- One wake-up of the consumer loop in `websocket_endpoint`: a text
frame arrived, the 30 s read timed out, or the peer closed the socket
(`WebSocketDisconnect`). -/
inductive LoopEvent where
  | recv (p : ParseResult)
  | timeout
  | disconnected
deriving DecidableEq, Repr

/-- Outcome of one iteration of the `while True` loop: the manager
state afterwards, the frames sent to the client, and whether the loop
runs another iteration (`continues = false` means the handler returned,
having called `manager.disconnect`). -/
structure StepOut where
  manager : ConnectionManager
  sent : List (Channel × Frame)
  continues : Bool
deriving DecidableEq, Repr

/-- One iteration of the consumer loop of `websocket_endpoint` for the
connection (`user_id`, `websocket`).  A raised exception anywhere in the
body (invalid payload, or a failed reply send) falls through to the
outer `except` clauses, which disconnect `user_id` and end the loop. -/
def websocket_step (m : ConnectionManager) (sendOk : Channel → Bool) (user_id : ClientId)
    (websocket : Channel) (now : Nat) (ev : LoopEvent) : StepOut :=
  match ev with
  | .disconnected => ⟨m.disconnect user_id, [], false⟩
  | .timeout =>
      if sendOk websocket then ⟨m, [(websocket, Frame.ping)], true⟩
      else ⟨m.disconnect user_id, [], false⟩
  | .recv .invalid => ⟨m.disconnect user_id, [], false⟩
  | .recv (.obj t) =>
      if t = some "ping" then
        if sendOk websocket then ⟨m, [(websocket, Frame.pong)], true⟩
        else ⟨m.disconnect user_id, [], false⟩
      else if t = some "status" then
        if sendOk websocket then
          ⟨m, [(websocket, Frame.statusReply true (dictLookup user_id m.user_emails) now)], true⟩
        else ⟨m.disconnect user_id, [], false⟩
      else ⟨m, [], true⟩

/-- The "registered client has no pending message" invariant (C9). -/
def Invariant (m : ConnectionManager) : Prop :=
  ∀ c : ClientId, m.isConnected c = true → dictLookup c m.pending_otps = none

/-! ### Concrete states used to instantiate the theorems -/

/-- A channel oracle on which every send succeeds. -/
def allOk : Channel → Bool := fun _ => true

/-- A channel oracle on which the send on channel 1 fails. -/
def okExceptOne : Channel → Bool := fun ch => ch != 1

/-- A manager with the single client `alice` connected on channel 0. -/
def mgrAlice : ConnectionManager := ⟨[("alice", 0)], [], []⟩

/-- The empty manager state (fresh process, nobody connected). -/
def mgrEmpty : ConnectionManager := ⟨[], [], []⟩

/-- A manager with three connected clients on channels 0, 1 and 2. -/
def mgrThree : ConnectionManager := ⟨[("alice", 0), ("bob", 1), ("carol", 2)], [], []⟩

/-- A sample `/api/otp` request body for `alice`. -/
def otpAlice : OTPData := ⟨"alice", "123456", "alice@mail.tm", "Service", "mail.tm"⟩

/-- A second `/api/otp` request body for `alice`, with a different code. -/
def otpAlice2 : OTPData := ⟨"alice", "654321", "alice@mail.tm", "Other", "mail.gw"⟩

/-- A sample `/api/email` request body for `alice`. -/
def emailAlice : EmailData := ⟨"alice", "alice@mail.gw"⟩

/-! ### Dictionary lemmas -/

theorem dictLookup_erase_self {β : Type} (k : ClientId) (l : List (ClientId × β)) :
    dictLookup k (dictErase k l) = none := by
  induction l with
  | nil => rfl
  | cons p rest ih =>
      by_cases h : p.1 = k
      · simpa [dictErase, h] using ih
      · simpa [dictErase, h, dictLookup] using ih

theorem dictLookup_erase_ne {β : Type} (k k2 : ClientId) (l : List (ClientId × β))
    (h : k2 ≠ k) : dictLookup k2 (dictErase k l) = dictLookup k2 l := by
  induction l with
  | nil => rfl
  | cons p rest ih =>
      by_cases hp : p.1 = k
      · simp [dictErase, hp, dictLookup, Ne.symm h]
        exact ih
      · by_cases hq : p.1 = k2
        · simp [dictErase, hp, dictLookup, hq, h]
        · simp [dictErase, hp, dictLookup, hq]
          exact ih

theorem dictLookup_insert_self {β : Type} (k : ClientId) (v : β) (l : List (ClientId × β)) :
    dictLookup k (dictInsert k v l) = some v := by
  simp [dictInsert, dictLookup]

theorem dictLookup_insert_ne {β : Type} (k k2 : ClientId) (v : β) (l : List (ClientId × β))
    (h : k2 ≠ k) : dictLookup k2 (dictInsert k v l) = dictLookup k2 l := by
  simp [dictInsert, dictLookup, Ne.symm h]
  exact dictLookup_erase_ne k k2 l h

theorem dictCountKey_erase_self {β : Type} (k : ClientId) (l : List (ClientId × β)) :
    dictCountKey k (dictErase k l) = 0 := by
  induction l with
  | nil => rfl
  | cons p rest ih =>
      by_cases h : p.1 = k
      · simpa [dictErase, dictCountKey, h] using ih
      · simpa [dictErase, dictCountKey, h] using ih

theorem dictCountKey_insert_self {β : Type} (k : ClientId) (v : β) (l : List (ClientId × β)) :
    dictCountKey k (dictInsert k v l) = 1 := by
  simp [dictInsert, dictCountKey, dictCountKey_erase_self]

theorem dictCountKey_eq_zero {β : Type} (k : ClientId) (l : List (ClientId × β))
    (h : dictLookup k l = none) : dictCountKey k l = 0 := by
  induction l with
  | nil => rfl
  | cons p rest ih =>
      by_cases hp : p.1 = k
      · simp [dictLookup, hp] at h
      · simp [dictLookup, hp] at h
        simpa [dictCountKey, hp] using ih h

/-! ### Helper lemmas about the manager operations -/

theorem disconnect_pending (m : ConnectionManager) (c : ClientId) :
    (m.disconnect c).pending_otps = m.pending_otps := by
  unfold ConnectionManager.disconnect
  split <;> rfl

theorem disconnect_emails (m : ConnectionManager) (c : ClientId) :
    (m.disconnect c).user_emails = m.user_emails := by
  unfold ConnectionManager.disconnect
  split <;> rfl

theorem disconnect_lookup_self (m : ConnectionManager) (c : ClientId) :
    dictLookup c (m.disconnect c).active_connections = none := by
  unfold ConnectionManager.disconnect
  split
  · exact dictLookup_erase_self c m.active_connections
  · next h =>
      simp [ConnectionManager.isConnected, Option.isSome_iff_exists] at h
      cases hl : dictLookup c m.active_connections with
      | none => rfl
      | some ch => exact absurd hl (h ch)

theorem disconnect_isConnected_self (m : ConnectionManager) (c : ClientId) :
    (m.disconnect c).isConnected c = false := by
  simp [ConnectionManager.isConnected, disconnect_lookup_self]

theorem disconnect_lookup_mono (m : ConnectionManager) (c c2 : ClientId) (ch : Channel)
    (h : dictLookup c (m.disconnect c2).active_connections = some ch) :
    dictLookup c m.active_connections = some ch := by
  unfold ConnectionManager.disconnect at h
  split at h
  · by_cases hc : c = c2
    · rw [hc] at h
      rw [dictLookup_erase_self] at h
      exact absurd h (by simp)
    · rwa [dictLookup_erase_ne c2 c _ hc] at h
  · exact h

theorem send_otp_pending (m : ConnectionManager) (sendOk : Channel → Bool)
    (u : ClientId) (d : Frame) :
    (m.send_otp sendOk u d).manager.pending_otps = m.pending_otps := by
  unfold ConnectionManager.send_otp
  split
  · split
    · rfl
    · exact disconnect_pending m u
  · rfl

theorem send_otp_emails (m : ConnectionManager) (sendOk : Channel → Bool)
    (u : ClientId) (d : Frame) :
    (m.send_otp sendOk u d).manager.user_emails = m.user_emails := by
  unfold ConnectionManager.send_otp
  split
  · split
    · rfl
    · exact disconnect_emails m u
  · rfl

theorem send_otp_lookup_mono (m : ConnectionManager) (sendOk : Channel → Bool)
    (u : ClientId) (d : Frame) (c : ClientId) (ch : Channel)
    (h : dictLookup c (m.send_otp sendOk u d).manager.active_connections = some ch) :
    dictLookup c m.active_connections = some ch := by
  unfold ConnectionManager.send_otp at h
  split at h
  · split at h
    · exact h
    · exact disconnect_lookup_mono m c u ch h
  · exact h

theorem send_otp_fail_not_connected (m : ConnectionManager) (sendOk : Channel → Bool)
    (u : ClientId) (d : Frame) (h : (m.send_otp sendOk u d).ok = false) :
    dictLookup u (m.send_otp sendOk u d).manager.active_connections = none := by
  cases hl : dictLookup u m.active_connections with
  | none => simp [ConnectionManager.send_otp, hl]
  | some ch =>
      by_cases hok : sendOk ch = true
      · simp [ConnectionManager.send_otp, hl, hok] at h
      · simp [ConnectionManager.send_otp, hl, hok, disconnect_lookup_self]

theorem broadcastLoop_pending (sendOk : Channel → Bool) (status : Frame)
    (l : List (ClientId × Channel)) (st : ConnectionManager) :
    (broadcastLoop sendOk status l st).1.pending_otps = st.pending_otps := by
  induction l generalizing st with
  | nil => rfl
  | cons p rest ih =>
      obtain ⟨uid, ws⟩ := p
      by_cases hok : sendOk ws = true
      · simpa [broadcastLoop, hok] using ih st
      · simpa [broadcastLoop, hok, disconnect_pending] using ih (st.disconnect uid)

theorem broadcastLoop_lookup_mono (sendOk : Channel → Bool) (status : Frame)
    (l : List (ClientId × Channel)) (st : ConnectionManager) (c : ClientId) (ch : Channel)
    (h : dictLookup c (broadcastLoop sendOk status l st).1.active_connections = some ch) :
    dictLookup c st.active_connections = some ch := by
  induction l generalizing st with
  | nil => exact h
  | cons p rest ih =>
      obtain ⟨uid, ws⟩ := p
      by_cases hok : sendOk ws = true
      · simp [broadcastLoop, hok] at h
        exact ih st h
      · simp [broadcastLoop, hok] at h
        exact disconnect_lookup_mono st c uid ch (ih (st.disconnect uid) h)

theorem broadcastLoop_lookup_none (sendOk : Channel → Bool) (status : Frame)
    (l : List (ClientId × Channel)) (st : ConnectionManager) (c : ClientId)
    (h : dictLookup c st.active_connections = none) :
    dictLookup c (broadcastLoop sendOk status l st).1.active_connections = none := by
  cases hres : dictLookup c (broadcastLoop sendOk status l st).1.active_connections with
  | none => rfl
  | some ch =>
      have := broadcastLoop_lookup_mono sendOk status l st c ch hres
      rw [h] at this
      exact absurd this (by simp)

theorem broadcastLoop_sends (sendOk : Channel → Bool) (status : Frame)
    (l : List (ClientId × Channel)) (st : ConnectionManager) (uid : ClientId) (ws : Channel)
    (hmem : (uid, ws) ∈ l) (hok : sendOk ws = true) :
    (ws, status) ∈ (broadcastLoop sendOk status l st).2 := by
  induction l generalizing st with
  | nil => cases hmem
  | cons p rest ih =>
      obtain ⟨uid2, ws2⟩ := p
      rcases List.mem_cons.mp hmem with hhd | htl
      · obtain ⟨h1, h2⟩ := Prod.mk.injEq .. ▸ hhd
        subst h1; subst h2
        simp [broadcastLoop, hok]
      · by_cases hok2 : sendOk ws2 = true
        · simp [broadcastLoop, hok2]
          right
          exact ih st htl
        · simp [broadcastLoop, hok2]
          exact ih (st.disconnect uid2) htl

theorem broadcastLoop_removes (sendOk : Channel → Bool) (status : Frame)
    (l : List (ClientId × Channel)) (st : ConnectionManager) (uid : ClientId) (ws : Channel)
    (hmem : (uid, ws) ∈ l) (hfail : sendOk ws = false) :
    dictLookup uid (broadcastLoop sendOk status l st).1.active_connections = none := by
  induction l generalizing st with
  | nil => cases hmem
  | cons p rest ih =>
      obtain ⟨uid2, ws2⟩ := p
      rcases List.mem_cons.mp hmem with hhd | htl
      · obtain ⟨h1, h2⟩ := Prod.mk.injEq .. ▸ hhd
        subst h1; subst h2
        simp [broadcastLoop, hfail]
        exact broadcastLoop_lookup_none sendOk status rest (st.disconnect uid) uid
          (disconnect_lookup_self st uid)
      · by_cases hok2 : sendOk ws2 = true
        · simp [broadcastLoop, hok2]
          exact ih st htl
        · simp [broadcastLoop, hok2]
          exact ih (st.disconnect uid2) htl

theorem isConnected_iff (m : ConnectionManager) (c : ClientId) :
    m.isConnected c = true ↔ ∃ ch, dictLookup c m.active_connections = some ch := by
  simp [ConnectionManager.isConnected, Option.isSome_iff_exists]

theorem disconnect_not_connected (m : ConnectionManager) (c : ClientId)
    (h : m.isConnected c = false) : m.disconnect c = m := by
  unfold ConnectionManager.disconnect
  simp [h]

theorem send_otp_ok_manager (m : ConnectionManager) (sendOk : Channel → Bool)
    (u : ClientId) (d : Frame) (h : (m.send_otp sendOk u d).ok = true) :
    (m.send_otp sendOk u d).manager = m := by
  cases hl : dictLookup u m.active_connections with
  | none => simp [ConnectionManager.send_otp, hl]
  | some ch =>
      by_cases hok : sendOk ch = true
      · simp [ConnectionManager.send_otp, hl, hok]
      · simp [ConnectionManager.send_otp, hl, hok] at h

theorem invariant_mk (ac : List (ClientId × Channel)) (po : List (ClientId × Frame))
    (ue : List (ClientId × String))
    (h : ∀ c ch, dictLookup c ac = some ch → dictLookup c po = none) :
    Invariant ⟨ac, po, ue⟩ := by
  intro c hc
  rw [isConnected_iff] at hc
  obtain ⟨ch, hch⟩ := hc
  exact h c ch hch

theorem invariant_lookup (m : ConnectionManager) (hInv : Invariant m) (c : ClientId)
    (ch : Channel) (h : dictLookup c m.active_connections = some ch) :
    dictLookup c m.pending_otps = none :=
  hInv c ((isConnected_iff m c).mpr ⟨ch, h⟩)

theorem invariant_of_mono (m m2 : ConnectionManager) (hInv : Invariant m)
    (hpend : m2.pending_otps = m.pending_otps)
    (hmono : ∀ c ch, dictLookup c m2.active_connections = some ch →
      dictLookup c m.active_connections = some ch) :
    Invariant m2 := by
  intro c hc
  rw [isConnected_iff] at hc
  obtain ⟨ch, hch⟩ := hc
  rw [hpend]
  exact invariant_lookup m hInv c ch (hmono c ch hch)

theorem invariant_connect (m : ConnectionManager) (hInv : Invariant m)
    (sendOk : Channel → Bool) (ws : Channel) (u : ClientId) :
    Invariant (m.connect sendOk ws u).manager := by
  cases hp : dictLookup u m.pending_otps with
  | none =>
      have hres : m.connect sendOk ws u =
          ⟨⟨dictInsert u ws m.active_connections, m.pending_otps, m.user_emails⟩, []⟩ := by
        simp [ConnectionManager.connect, hp]
      rw [hres]
      apply invariant_mk
      intro c ch hch
      by_cases hcu : c = u
      · subst hcu; exact hp
      · rw [dictLookup_insert_ne u c ws _ hcu] at hch
        exact invariant_lookup m hInv c ch hch
  | some msg =>
      have hm2 : Invariant (⟨dictInsert u ws m.active_connections,
          dictErase u m.pending_otps, m.user_emails⟩ : ConnectionManager) := by
        apply invariant_mk
        intro c ch hch
        by_cases hcu : c = u
        · subst hcu; exact dictLookup_erase_self _ _
        · rw [dictLookup_insert_ne u c ws _ hcu] at hch
          rw [dictLookup_erase_ne u c _ hcu]
          exact invariant_lookup m hInv c ch hch
      have hres : m.connect sendOk ws u =
          ⟨(ConnectionManager.send_otp
              ⟨dictInsert u ws m.active_connections, dictErase u m.pending_otps, m.user_emails⟩
              sendOk u msg).manager,
            (ConnectionManager.send_otp
              ⟨dictInsert u ws m.active_connections, dictErase u m.pending_otps, m.user_emails⟩
              sendOk u msg).sent⟩ := by
        simp [ConnectionManager.connect, hp]
      rw [hres]
      exact invariant_of_mono _ _ hm2 (send_otp_pending _ _ _ _)
        (fun c ch h => send_otp_lookup_mono _ _ _ _ c ch h)

theorem invariant_receive_otp (m : ConnectionManager) (hInv : Invariant m)
    (sendOk : Channel → Bool) (d : OTPData) (now : Nat) :
    Invariant (receive_otp m sendOk d now).manager := by
  by_cases hok : (m.send_otp sendOk d.user_id (otpInfo d now)).ok = true
  · have hres : (receive_otp m sendOk d now).manager =
        (m.send_otp sendOk d.user_id (otpInfo d now)).manager := by
      simp [receive_otp, hok]
    rw [hres, send_otp_ok_manager _ _ _ _ hok]
    exact hInv
  · have hfail : (m.send_otp sendOk d.user_id (otpInfo d now)).ok = false := by
      simpa using hok
    have hres : (receive_otp m sendOk d now).manager =
        ⟨(m.send_otp sendOk d.user_id (otpInfo d now)).manager.active_connections,
          dictInsert d.user_id (otpInfo d now)
            (m.send_otp sendOk d.user_id (otpInfo d now)).manager.pending_otps,
          (m.send_otp sendOk d.user_id (otpInfo d now)).manager.user_emails⟩ := by
      simp [receive_otp, hfail]
    rw [hres]
    apply invariant_mk
    intro c ch hch
    by_cases hcu : c = d.user_id
    · subst hcu
      rw [send_otp_fail_not_connected _ _ _ _ hfail] at hch
      cases hch
    · rw [dictLookup_insert_ne _ _ _ _ hcu, send_otp_pending]
      exact invariant_lookup m hInv c ch (send_otp_lookup_mono _ _ _ _ c ch hch)

theorem invariant_register_email (m : ConnectionManager) (hInv : Invariant m)
    (sendOk : Channel → Bool) (e : EmailData) (now : Nat) :
    Invariant (register_email m sendOk e now).manager := by
  have hm1 : Invariant (⟨m.active_connections, m.pending_otps,
      dictInsert e.user_id e.email m.user_emails⟩ : ConnectionManager) := by
    apply invariant_mk
    intro c ch hch
    exact invariant_lookup m hInv c ch hch
  exact invariant_of_mono _ _ hm1 (send_otp_pending _ _ _ _)
    (fun c ch h => send_otp_lookup_mono _ _ _ _ c ch h)

theorem invariant_broadcast (m : ConnectionManager) (hInv : Invariant m)
    (sendOk : Channel → Bool) (now : String) :
    Invariant (m.broadcast_status sendOk now).1 :=
  invariant_of_mono m _ hInv (broadcastLoop_pending _ _ _ _)
    (fun c ch h => broadcastLoop_lookup_mono _ _ _ _ c ch h)

/-! ### Claim theorems -/

/-- C1: if `deliver(c, m)` (the `/api/otp` path: `receive_otp` calling
`send_otp`) runs while `c` is connected and the send on `c`'s channel
succeeds, the client receives exactly the constructed `otp_info` frame,
the response status is `delivered`, and the pending queue is untouched,
so the entry count for `c` stays zero. -/
theorem receive_otp_connected_delivers (m : ConnectionManager) (sendOk : Channel → Bool)
    (data : OTPData) (now : Nat) (ch : Channel)
    (hconn : dictLookup data.user_id m.active_connections = some ch)
    (hok : sendOk ch = true)
    (hpend : dictLookup data.user_id m.pending_otps = none) :
    (receive_otp m sendOk data now).status = "delivered" ∧
    (receive_otp m sendOk data now).sent = [(ch, otpInfo data now)] ∧
    (receive_otp m sendOk data now).manager.pending_otps = m.pending_otps ∧
    dictLookup data.user_id (receive_otp m sendOk data now).manager.pending_otps = none ∧
    dictCountKey data.user_id (receive_otp m sendOk data now).manager.pending_otps = 0 := by
  have hr : receive_otp m sendOk data now = ⟨m, [(ch, otpInfo data now)], "delivered"⟩ := by
    simp [receive_otp, ConnectionManager.send_otp, hconn, hok]
  rw [hr]
  exact ⟨rfl, rfl, rfl, hpend, dictCountKey_eq_zero _ _ hpend⟩

/-- Witness for C1 at a concrete state: `alice` connected on channel 0,
a send that succeeds, an empty queue. -/
theorem receive_otp_connected_delivers_witness :
    (receive_otp mgrAlice allOk otpAlice 7).status = "delivered" ∧
    (receive_otp mgrAlice allOk otpAlice 7).sent = [(0, otpInfo otpAlice 7)] ∧
    (receive_otp mgrAlice allOk otpAlice 7).manager.pending_otps = mgrAlice.pending_otps ∧
    dictLookup otpAlice.user_id (receive_otp mgrAlice allOk otpAlice 7).manager.pending_otps =
      none ∧
    dictCountKey otpAlice.user_id (receive_otp mgrAlice allOk otpAlice 7).manager.pending_otps =
      0 :=
  receive_otp_connected_delivers mgrAlice allOk otpAlice 7 0 (by decide) rfl (by decide)

/-- C2: for a disconnected `c`, `deliver(c, m)` answers `pending` and
stores exactly one pending message for `c`, overwriting any previous
one: queuing `m1` then `m2` leaves only `m2`, and only `m2` is delivered
when `c` reconnects. -/
theorem receive_otp_offline_queues (m : ConnectionManager)
    (sendOk1 sendOk2 sendOk3 : Channel → Bool) (d1 d2 : OTPData) (now1 now2 : Nat) (ch : Channel)
    (huid : d2.user_id = d1.user_id)
    (hconn : dictLookup d1.user_id m.active_connections = none)
    (hok3 : sendOk3 ch = true) :
    (receive_otp m sendOk1 d1 now1).status = "pending" ∧
    dictLookup d1.user_id (receive_otp m sendOk1 d1 now1).manager.pending_otps =
      some (otpInfo d1 now1) ∧
    dictCountKey d1.user_id (receive_otp m sendOk1 d1 now1).manager.pending_otps = 1 ∧
    (receive_otp (receive_otp m sendOk1 d1 now1).manager sendOk2 d2 now2).status = "pending" ∧
    dictLookup d1.user_id
      (receive_otp (receive_otp m sendOk1 d1 now1).manager sendOk2 d2 now2).manager.pending_otps =
      some (otpInfo d2 now2) ∧
    dictCountKey d1.user_id
      (receive_otp (receive_otp m sendOk1 d1 now1).manager sendOk2 d2 now2).manager.pending_otps =
      1 ∧
    (ConnectionManager.connect
      (receive_otp (receive_otp m sendOk1 d1 now1).manager sendOk2 d2 now2).manager
      sendOk3 ch d1.user_id).sent = [(ch, otpInfo d2 now2)] := by
  have h1 : receive_otp m sendOk1 d1 now1 =
      ⟨{ m with pending_otps := dictInsert d1.user_id (otpInfo d1 now1) m.pending_otps },
       [], "pending"⟩ := by
    simp [receive_otp, ConnectionManager.send_otp, hconn]
  have h2 : receive_otp (receive_otp m sendOk1 d1 now1).manager sendOk2 d2 now2 =
      ⟨⟨m.active_connections,
        dictInsert d1.user_id (otpInfo d2 now2)
          (dictInsert d1.user_id (otpInfo d1 now1) m.pending_otps),
        m.user_emails⟩, [], "pending"⟩ := by
    rw [h1]
    simp [receive_otp, ConnectionManager.send_otp, huid, hconn]
  refine ⟨by rw [h1], ?_, ?_, by rw [h2], ?_, ?_, ?_⟩
  · rw [h1]; exact dictLookup_insert_self _ _ _
  · rw [h1]; exact dictCountKey_insert_self _ _ _
  · rw [h2]; exact dictLookup_insert_self _ _ _
  · rw [h2]; exact dictCountKey_insert_self _ _ _
  · rw [h2]
    simp [ConnectionManager.connect, ConnectionManager.send_otp, dictLookup_insert_self, hok3]

/-- Witness for C2 at a concrete state: `alice` disconnected, two
passcodes queued in a row, then a reconnect on channel 5. -/
theorem receive_otp_offline_queues_witness :
    (receive_otp mgrEmpty allOk otpAlice 1).status = "pending" ∧
    dictLookup otpAlice.user_id (receive_otp mgrEmpty allOk otpAlice 1).manager.pending_otps =
      some (otpInfo otpAlice 1) ∧
    dictCountKey otpAlice.user_id (receive_otp mgrEmpty allOk otpAlice 1).manager.pending_otps =
      1 ∧
    (receive_otp (receive_otp mgrEmpty allOk otpAlice 1).manager allOk otpAlice2 2).status =
      "pending" ∧
    dictLookup otpAlice.user_id
      (receive_otp (receive_otp mgrEmpty allOk otpAlice 1).manager allOk
        otpAlice2 2).manager.pending_otps = some (otpInfo otpAlice2 2) ∧
    dictCountKey otpAlice.user_id
      (receive_otp (receive_otp mgrEmpty allOk otpAlice 1).manager allOk
        otpAlice2 2).manager.pending_otps = 1 ∧
    (ConnectionManager.connect
      (receive_otp (receive_otp mgrEmpty allOk otpAlice 1).manager allOk otpAlice2 2).manager
      allOk 5 otpAlice.user_id).sent = [(5, otpInfo otpAlice2 2)] :=
  receive_otp_offline_queues mgrEmpty allOk allOk allOk otpAlice otpAlice2 1 2 5
    (by decide) (by decide) rfl

/-- C3: registering a channel for a `c` that has a buffered pending
message removes the entry from the queue unconditionally (single
best-effort send, no re-queuing on failure), and when the send succeeds
the buffered message is delivered over the new channel. -/
theorem connect_flushes_pending (m : ConnectionManager) (sendOk : Channel → Bool)
    (ws : Channel) (c : ClientId) (msg : Frame)
    (hpend : dictLookup c m.pending_otps = some msg) :
    dictLookup c (m.connect sendOk ws c).manager.pending_otps = none ∧
    (m.connect sendOk ws c).manager.pending_otps = dictErase c m.pending_otps ∧
    (sendOk ws = true → (m.connect sendOk ws c).sent = [(ws, msg)]) := by
  have hstep : m.connect sendOk ws c =
      ⟨(ConnectionManager.send_otp
          ⟨dictInsert c ws m.active_connections, dictErase c m.pending_otps, m.user_emails⟩
          sendOk c msg).manager,
        (ConnectionManager.send_otp
          ⟨dictInsert c ws m.active_connections, dictErase c m.pending_otps, m.user_emails⟩
          sendOk c msg).sent⟩ := by
    simp [ConnectionManager.connect, hpend]
  rw [hstep]
  refine ⟨?_, ?_, ?_⟩
  · rw [send_otp_pending]
    exact dictLookup_erase_self c m.pending_otps
  · rw [send_otp_pending]
  · intro hok
    simp [ConnectionManager.send_otp, dictLookup_insert_self, hok]

/-- Witness for C3 at a concrete state: `alice` disconnected with a
buffered passcode, reconnecting on channel 2 with a working send. -/
theorem connect_flushes_pending_witness :
    dictLookup "alice"
      (ConnectionManager.connect ⟨[], [("alice", otpInfo otpAlice 3)], []⟩ allOk 2
        "alice").manager.pending_otps = none ∧
    (ConnectionManager.connect ⟨[], [("alice", otpInfo otpAlice 3)], []⟩ allOk 2
        "alice").manager.pending_otps = dictErase "alice" [("alice", otpInfo otpAlice 3)] ∧
    (allOk 2 = true →
      (ConnectionManager.connect ⟨[], [("alice", otpInfo otpAlice 3)], []⟩ allOk 2
        "alice").sent = [(2, otpInfo otpAlice 3)]) :=
  connect_flushes_pending ⟨[], [("alice", otpInfo otpAlice 3)], []⟩ allOk 2 "alice"
    (otpInfo otpAlice 3) (by decide)

/-- C4 counterexample: with `alice` connected on channel 0, an inbound
frame that is not valid JSON makes `json.loads` raise; the inner handler
catches only `asyncio.TimeoutError`, so the exception reaches the outer
handler, which disconnects `alice` and ends the consumer loop — the
frame is not ignored as claimed. -/
theorem websocket_step_invalid_disconnects :
    (websocket_step mgrAlice allOk "alice" 0 0 (LoopEvent.recv ParseResult.invalid)).continues =
      false ∧
    (websocket_step mgrAlice allOk "alice" 0 0
        (LoopEvent.recv ParseResult.invalid)).manager.isConnected "alice" = false := by
  decide

/-- C4 (amended): a valid-JSON object frame lacking a recognized `type`
is ignored — no response is sent, the loop continues, the registry is
untouched; a frame that is not valid JSON, however, raises out of the
loop body, and the outer handler disconnects the client and terminates
the loop. -/
theorem websocket_step_malformed (m : ConnectionManager) (sendOk : Channel → Bool)
    (user_id : ClientId) (ws : Channel) (now : Nat) (t : Option String)
    (hping : t ≠ some "ping") (hstatus : t ≠ some "status") :
    websocket_step m sendOk user_id ws now (LoopEvent.recv (ParseResult.obj t)) =
      ⟨m, [], true⟩ ∧
    websocket_step m sendOk user_id ws now (LoopEvent.recv ParseResult.invalid) =
      ⟨m.disconnect user_id, [], false⟩ := by
  constructor
  · simp [websocket_step, hping, hstatus]
  · rfl

/-- Witness for the amended C4: `alice` connected, a frame of type
`bogus`. -/
theorem websocket_step_malformed_witness :
    websocket_step mgrAlice allOk "alice" 0 0 (LoopEvent.recv (ParseResult.obj (some "bogus"))) =
      ⟨mgrAlice, [], true⟩ ∧
    websocket_step mgrAlice allOk "alice" 0 0 (LoopEvent.recv ParseResult.invalid) =
      ⟨mgrAlice.disconnect "alice", [], false⟩ :=
  websocket_step_malformed mgrAlice allOk "alice" 0 0 (some "bogus") (by decide) (by decide)

/-- C5 counterexample: with `alice` not connected, `register_email`
leaves the pending queue empty and sends nothing — the
email-registration message is dropped, not stored for later delivery as
the claim states. -/
theorem register_email_offline_not_queued :
    (register_email mgrEmpty allOk emailAlice 4).manager.pending_otps = [] ∧
    dictLookup "alice" (register_email mgrEmpty allOk emailAlice 4).manager.pending_otps =
      none ∧
    (register_email mgrEmpty allOk emailAlice 4).sent = [] ∧
    (register_email mgrEmpty allOk emailAlice 4).status = "registered" := by
  decide

/-- C5 (amended): `register_email` overwrites the email binding and
answers `registered`, but its delivery attempt is a bare `send_otp`
call whose boolean is discarded: when the client is not connected
nothing is sent, and the pending queue is left exactly as it was — the
email-registration message is dropped, not queued. -/
theorem register_email_offline_drops (m : ConnectionManager) (sendOk : Channel → Bool)
    (data : EmailData) (now : Nat)
    (hconn : dictLookup data.user_id m.active_connections = none) :
    (register_email m sendOk data now).status = "registered" ∧
    dictLookup data.user_id (register_email m sendOk data now).manager.user_emails =
      some data.email ∧
    (register_email m sendOk data now).manager.pending_otps = m.pending_otps ∧
    (register_email m sendOk data now).sent = [] := by
  simp [register_email, ConnectionManager.send_otp, hconn, dictLookup_insert_self]

/-- Witness for the amended C5: `alice` not connected registers an
email. -/
theorem register_email_offline_drops_witness :
    (register_email mgrEmpty allOk emailAlice 4).status = "registered" ∧
    dictLookup emailAlice.user_id
      (register_email mgrEmpty allOk emailAlice 4).manager.user_emails =
      some emailAlice.email ∧
    (register_email mgrEmpty allOk emailAlice 4).manager.pending_otps =
      mgrEmpty.pending_otps ∧
    (register_email mgrEmpty allOk emailAlice 4).sent = [] :=
  register_email_offline_drops mgrEmpty allOk emailAlice 4 (by decide)

/-- C6: `broadcast_status` hands the status snapshot to every
registered channel; a recipient whose send fails is removed from the
registry, and the failure does not keep any other recipient from
receiving the frame. -/
theorem broadcast_status_isolates_failures (m : ConnectionManager) (sendOk : Channel → Bool)
    (now : String) (uid : ClientId) (ws : Channel)
    (hmem : (uid, ws) ∈ m.active_connections) :
    (sendOk ws = true → (ws, statusFrame m now) ∈ (m.broadcast_status sendOk now).2) ∧
    (sendOk ws = false →
      dictLookup uid (m.broadcast_status sendOk now).1.active_connections = none) := by
  constructor
  · intro hok
    exact broadcastLoop_sends sendOk (statusFrame m now) m.active_connections m uid ws hmem hok
  · intro hfail
    exact broadcastLoop_removes sendOk (statusFrame m now) m.active_connections m uid ws hmem
      hfail

/-- Witness for C6: three connected clients, the send to `bob` on
channel 1 fails; `alice` and `carol` still receive the frame and `bob`
is unregistered. -/
theorem broadcast_status_isolates_failures_witness :
    ((0 : Channel), statusFrame mgrThree "t") ∈ (mgrThree.broadcast_status okExceptOne "t").2 ∧
    ((2 : Channel), statusFrame mgrThree "t") ∈ (mgrThree.broadcast_status okExceptOne "t").2 ∧
    dictLookup "bob" (mgrThree.broadcast_status okExceptOne "t").1.active_connections = none :=
  ⟨(broadcast_status_isolates_failures mgrThree okExceptOne "t" "alice" 0 (by decide)).1
      (by decide),
   (broadcast_status_isolates_failures mgrThree okExceptOne "t" "carol" 2 (by decide)).1
      (by decide),
   (broadcast_status_isolates_failures mgrThree okExceptOne "t" "bob" 1 (by decide)).2
      (by decide)⟩

/-- C7: `disconnect` is idempotent: a second disconnect for the same
client is a no-op (an absent binding raises no error), and
`isConnected` is false after each of the two calls. -/
theorem disconnect_idempotent (m : ConnectionManager) (c : ClientId) :
    (m.disconnect c).isConnected c = false ∧
    (m.disconnect c).disconnect c = m.disconnect c ∧
    ((m.disconnect c).disconnect c).isConnected c = false := by
  have h1 : (m.disconnect c).isConnected c = false := disconnect_isConnected_self m c
  have h2 : (m.disconnect c).disconnect c = m.disconnect c := disconnect_not_connected _ c h1
  exact ⟨h1, h2, by rw [h2]; exact h1⟩

/-- C8: when the 30-second read times out, the server sends
`{type: "ping"}` to the client; if that send succeeds the registry entry
is untouched and the consumer loop continues. -/
theorem websocket_step_timeout_pings (m : ConnectionManager) (sendOk : Channel → Bool)
    (user_id : ClientId) (ws : Channel) (now : Nat)
    (hok : sendOk ws = true) :
    websocket_step m sendOk user_id ws now LoopEvent.timeout =
      ⟨m, [(ws, Frame.ping)], true⟩ := by
  simp [websocket_step, hok]

/-- Witness for C8: `alice` connected on channel 0, a working send. -/
theorem websocket_step_timeout_pings_witness :
    websocket_step mgrAlice allOk "alice" 0 9 LoopEvent.timeout =
      ⟨mgrAlice, [(0, Frame.ping)], true⟩ :=
  websocket_step_timeout_pings mgrAlice allOk "alice" 0 9 rfl

/-- C9: every completed operation — connect, disconnect, deliver via
`receive_otp`, `register_email`, `broadcast_status` — preserves the
invariant that a client registered in the connection registry has no
pending message in the queue. -/
theorem operations_preserve_invariant (m : ConnectionManager) (hInv : Invariant m)
    (sendOk : Channel → Bool) (ws : Channel) (c : ClientId) (d : OTPData) (e : EmailData)
    (now : Nat) (ts : String) :
    Invariant (m.connect sendOk ws c).manager ∧
    Invariant (m.disconnect c) ∧
    Invariant (receive_otp m sendOk d now).manager ∧
    Invariant (register_email m sendOk e now).manager ∧
    Invariant (m.broadcast_status sendOk ts).1 :=
  ⟨invariant_connect m hInv sendOk ws c,
   invariant_of_mono m _ hInv (disconnect_pending m c)
     (fun c2 ch h => disconnect_lookup_mono m c2 c ch h),
   invariant_receive_otp m hInv sendOk d now,
   invariant_register_email m hInv sendOk e now,
   invariant_broadcast m hInv sendOk ts⟩

/-- Witness for C9 at a concrete state: `alice` connected on channel 0,
an empty queue (the invariant holds trivially there), each operation
applied once. -/
theorem operations_preserve_invariant_witness :
    Invariant (mgrAlice.connect allOk 3 "bob").manager ∧
    Invariant (mgrAlice.disconnect "bob") ∧
    Invariant (receive_otp mgrAlice allOk otpAlice 1).manager ∧
    Invariant (register_email mgrAlice allOk emailAlice 2).manager ∧
    Invariant (mgrAlice.broadcast_status allOk "t").1 :=
  operations_preserve_invariant mgrAlice (fun _ _ => rfl) allOk 3 "bob" otpAlice emailAlice
    1 "t"

/-- C10: `disconnect` modifies only the connection registry: the
pending queue and the email-binding map come out unchanged, so a
buffered pending message and a registered email both survive the
client's disconnect. -/
theorem disconnect_only_registry (m : ConnectionManager) (c : ClientId) :
    (m.disconnect c).pending_otps = m.pending_otps ∧
    (m.disconnect c).user_emails = m.user_emails ∧
    dictLookup c (m.disconnect c).pending_otps = dictLookup c m.pending_otps ∧
    dictLookup c (m.disconnect c).user_emails = dictLookup c m.user_emails := by
  have hp := disconnect_pending m c
  have he := disconnect_emails m c
  exact ⟨hp, he, by rw [hp], by rw [he]⟩

end TempMail
